import Mathlib

/-!
Verification of the Task management application (C# backend controller plus
TypeScript frontend helpers) against its natural-language specification.

The embedding follows the source:
* the four-member enumerations TaskStatus and TaskPriority, declared with
  ordinals 0..3 in both the C# model (Models/Task.cs) and the TypeScript
  types module (types/task.ts);
* normalizeTaskStatus and normalizeTaskPriority from types/task.ts, which
  pass numeric inputs through unchanged and match string inputs
  case-sensitively against the member names, defaulting to Pending
  respectively Medium;
* getStatusText and getPriorityText from TaskCard.tsx;
* the CRUD actions of TasksController.cs (CreateTask, GetTasks, UpdateTask,
  DeleteTask), modelled over an explicit store state: a list of rows plus
  the next id of the identity sequence.  DateTime.UtcNow is modelled by an
  explicit clock argument; the wire value of an enum-typed field is an
  integer, as both the C# enum and the TypeScript runtime value are.
-/

/-- Members of the TaskStatus enumeration, as declared in the source
(Pending, InProgress, Completed, Cancelled). -/
inductive StatusMember
  | Pending
  | InProgress
  | Completed
  | Cancelled
deriving DecidableEq, Repr

/-- Ordinal of a TaskStatus member: Pending = 0, InProgress = 1,
Completed = 2, Cancelled = 3, exactly as in the source declarations. -/
def StatusMember.ord : StatusMember → Int
  | .Pending => 0
  | .InProgress => 1
  | .Completed => 2
  | .Cancelled => 3

/-- Declared name of a TaskStatus member, as written in the source. -/
def StatusMember.memberName : StatusMember → String
  | .Pending => "Pending"
  | .InProgress => "InProgress"
  | .Completed => "Completed"
  | .Cancelled => "Cancelled"

/-- Members of the TaskPriority enumeration, as declared in the source
(Low, Medium, High, Critical). -/
inductive PriorityMember
  | Low
  | Medium
  | High
  | Critical
deriving DecidableEq, Repr

/-- Ordinal of a TaskPriority member: Low = 0, Medium = 1, High = 2,
Critical = 3, exactly as in the source declarations. -/
def PriorityMember.ord : PriorityMember → Int
  | .Low => 0
  | .Medium => 1
  | .High => 2
  | .Critical => 3

/-- Declared name of a TaskPriority member, as written in the source. -/
def PriorityMember.memberName : PriorityMember → String
  | .Low => "Low"
  | .Medium => "Medium"
  | .High => "High"
  | .Critical => "Critical"

/-- normalizeTaskStatus from types/task.ts.  A runtime value of type
TaskStatus-or-string is either a number (left) or a string (right).  The
numeric branch returns the number unchanged (the source cast performs no
runtime check); the string branch is the switch over the four member
names with default Pending. -/
def normalizeTaskStatus : Int ⊕ String → Int
  | Sum.inl n => n
  | Sum.inr s =>
      if s = "Pending" then 0
      else if s = "InProgress" then 1
      else if s = "Completed" then 2
      else if s = "Cancelled" then 3
      else 0

/-- normalizeTaskPriority from types/task.ts: numeric inputs pass through
unchanged, strings are matched against the four member names with default
Medium. -/
def normalizeTaskPriority : Int ⊕ String → Int
  | Sum.inl n => n
  | Sum.inr s =>
      if s = "Low" then 0
      else if s = "Medium" then 1
      else if s = "High" then 2
      else if s = "Critical" then 3
      else 1

/-- getStatusText from TaskCard.tsx: the switch over the numeric status
values, with default "Unknown". -/
def getStatusText (status : Int) : String :=
  if status = 0 then "Pending"
  else if status = 1 then "InProgress"
  else if status = 2 then "Completed"
  else if status = 3 then "Cancelled"
  else "Unknown"

/-- getPriorityText from TaskCard.tsx: the switch over the numeric
priority values, with default "Unknown". -/
def getPriorityText (priority : Int) : String :=
  if priority = 0 then "Low"
  else if priority = 1 then "Medium"
  else if priority = 2 then "High"
  else if priority = 3 then "Critical"
  else "Unknown"

/-- The four status ordinals, the range of the enumeration. -/
def statusRange : List Int := [0, 1, 2, 3]

/-- The four priority ordinals, the range of the enumeration. -/
def priorityRange : List Int := [0, 1, 2, 3]

lemma normalizeTaskStatus_string_mem (s : String) :
    normalizeTaskStatus (Sum.inr s) ∈ statusRange := by
  simp only [normalizeTaskStatus, statusRange]
  split_ifs <;> simp

lemma normalizeTaskPriority_string_mem (s : String) :
    normalizeTaskPriority (Sum.inr s) ∈ priorityRange := by
  simp only [normalizeTaskPriority, priorityRange]
  split_ifs <;> simp

lemma normalizeTaskStatus_num (n : Int) :
    normalizeTaskStatus (Sum.inl n) = n := rfl

lemma normalizeTaskPriority_num (n : Int) :
    normalizeTaskPriority (Sum.inl n) = n := rfl

/-- Claim C10: for every string input, the string branch of
normalizeTaskStatus returns one of the four defined TaskStatus ordinals
and the string branch of normalizeTaskPriority returns one of the four
defined TaskPriority ordinals; the string branch can never produce a
value outside the enumeration. -/
theorem normalize_string_branch_in_range (s : String) :
    normalizeTaskStatus (Sum.inr s) ∈ statusRange ∧
    normalizeTaskPriority (Sum.inr s) ∈ priorityRange :=
  ⟨normalizeTaskStatus_string_mem s, normalizeTaskPriority_string_mem s⟩

/-- Claim C9: the canonical string emission and normalization form a
lossless round-trip: for every defined status member, normalizing the
emitted name getStatusText returns the member, and likewise for every
priority member with getPriorityText and normalizeTaskPriority. -/
theorem text_normalize_roundtrip :
    (∀ m : StatusMember,
        normalizeTaskStatus (Sum.inr (getStatusText m.ord)) = m.ord) ∧
    (∀ m : PriorityMember,
        normalizeTaskPriority (Sum.inr (getPriorityText m.ord)) = m.ord) := by
  constructor <;> intro m <;> cases m <;> rfl

/-- Claim C4, counterexample: the string "High" is a member name of
TaskPriority (ordinal 2), not of TaskStatus; normalizing the status
string "High" yields Pending (0) while normalizing the numeric ordinal 2
yields Completed (2), so the two creations do not agree on status. -/
theorem status_high_roundtrip_cex :
    normalizeTaskStatus (Sum.inr "High") = StatusMember.Pending.ord ∧
    normalizeTaskStatus (Sum.inl PriorityMember.High.ord) = 2 ∧
    normalizeTaskStatus (Sum.inr "High") ≠
      normalizeTaskStatus (Sum.inl PriorityMember.High.ord) := by
  refine ⟨rfl, rfl, ?_⟩
  decide

/-- Claim C4, amended: for every defined member of an enumeration,
normalizing its declared string name and normalizing its numeric ordinal
with the normalizer of that same enumeration produce the same value; in
particular this holds for the priority member High, the enumeration the
string "High" belongs to. -/
theorem member_name_ordinal_roundtrip :
    (∀ m : StatusMember,
        normalizeTaskStatus (Sum.inr m.memberName) =
          normalizeTaskStatus (Sum.inl m.ord)) ∧
    (∀ m : PriorityMember,
        normalizeTaskPriority (Sum.inr m.memberName) =
          normalizeTaskPriority (Sum.inl m.ord)) := by
  constructor <;> intro m <;> cases m <;> rfl

/-- A persisted Task row, after the C# entity TaskItem in Models/Task.cs.
DateTime values are modelled as natural-number UTC ticks; the enum-typed
columns hold the underlying integer value. -/
structure TaskItem where
  id : Nat
  title : String
  description : Option String
  status : Int
  priority : Int
  createdAt : Nat
  updatedAt : Option Nat
  dueDate : Option Nat
deriving DecidableEq, Repr

/-- The client-settable fields of the Task entity bound from a request
body (title, description, status, priority, dueDate). -/
structure TaskInput where
  title : String
  description : Option String
  status : Int
  priority : Int
  dueDate : Option Nat
deriving DecidableEq, Repr

/-- The request body of UpdateTask: the mutable fields plus the id that
must match the path id. -/
structure UpdateInput where
  id : Nat
  title : String
  description : Option String
  status : Int
  priority : Int
  dueDate : Option Nat
deriving DecidableEq, Repr

/-- The mutable fields carried by an update body. -/
def UpdateInput.fields (u : UpdateInput) : TaskInput :=
  ⟨u.title, u.description, u.status, u.priority, u.dueDate⟩

/-- ModelState.IsValid for the bound Task entity: the Required attribute
on Title rejects a missing or empty title, and the StringLength
attributes bound Title by 200 and Description by 1000 characters. -/
def modelStateIsValid (input : TaskInput) : Bool :=
  input.title ≠ "" && input.title.length ≤ 200 &&
    (match input.description with
     | none => true
     | some d => d.length ≤ 1000)

/-- Outcomes of a controller action other than success: BadRequest (400)
from an id mismatch or model validation, NotFound (404) from a missing
record. -/
inductive ApiError
  | badRequest
  | notFound
deriving DecidableEq, Repr

/-- The persisted state: the Tasks table in insertion order together with
the next value of the id identity sequence. -/
structure Store where
  tasks : List TaskItem
  nextId : Nat
deriving DecidableEq, Repr

/-- The empty database; identity sequences start at 1. -/
def Store.empty : Store := ⟨[], 1⟩

/-- TasksController.CreateTask: validates the model, sets CreatedAt and
UpdatedAt to DateTime.UtcNow (the source assigns both), lets the store
assign the next id, appends the row and returns 201 with the created
task. -/
def createTask (s : Store) (now : Nat) (input : TaskInput) :
    Except ApiError (Store × TaskItem) :=
  if modelStateIsValid input then
    let t : TaskItem :=
      { id := s.nextId, title := input.title,
        description := input.description, status := input.status,
        priority := input.priority, createdAt := now,
        updatedAt := some now, dueDate := input.dueDate }
    Except.ok ({ tasks := s.tasks ++ [t], nextId := s.nextId + 1 }, t)
  else Except.error ApiError.badRequest

/-- Ordering key of GetTasks: a row sorts before another when its
CreatedAt is at least as large (OrderByDescending on CreatedAt). -/
def createdAtDesc (a b : TaskItem) : Prop := b.createdAt ≤ a.createdAt

instance : DecidableRel createdAtDesc :=
  fun a b => inferInstanceAs (Decidable (b.createdAt ≤ a.createdAt))

instance : IsTotal TaskItem createdAtDesc :=
  ⟨fun a b => Nat.le_total b.createdAt a.createdAt⟩

instance : IsTrans TaskItem createdAtDesc :=
  ⟨fun _ _ _ hab hbc => le_trans hbc hab⟩

/-- TasksController.GetTasks: all rows ordered by CreatedAt descending.
OrderByDescending is a stable sort on the key, modelled by a stable
insertion sort under the createdAtDesc relation. -/
def getTasks (s : Store) : List TaskItem :=
  s.tasks.insertionSort createdAtDesc

/-- TasksController.UpdateTask: rejects an id mismatch between path and
body with 400, validates the model, looks the row up by id (404 when
absent), then overwrites Title, Description, Status, Priority, DueDate
and sets UpdatedAt to DateTime.UtcNow, leaving Id and CreatedAt alone. -/
def updateTask (s : Store) (now : Nat) (pathId : Nat) (upd : UpdateInput) :
    Except ApiError Store :=
  if pathId ≠ upd.id then Except.error ApiError.badRequest
  else if ¬ modelStateIsValid upd.fields then Except.error ApiError.badRequest
  else
    match s.tasks.find? (fun t => t.id == pathId) with
    | none => Except.error ApiError.notFound
    | some existing =>
        let updated : TaskItem :=
          { existing with
            title := upd.title, description := upd.description,
            status := upd.status, priority := upd.priority,
            dueDate := upd.dueDate, updatedAt := some now }
        Except.ok
          { s with
            tasks := s.tasks.map (fun t => if t.id == pathId then updated else t) }

/-- TasksController.DeleteTask: looks the row up by id, answers 404 when
absent, otherwise removes that row and returns 204. -/
def deleteTask (s : Store) (id : Nat) : Except ApiError Store :=
  match s.tasks.find? (fun t => t.id == id) with
  | none => Except.error ApiError.notFound
  | some _ => Except.ok { s with tasks := s.tasks.eraseP (fun t => t.id == id) }

/-- The JavaScript String.prototype.trim operation: remove whitespace
from both ends, modelled directly over the character list. -/
def trimString (s : String) : String :=
  ⟨((s.data.dropWhile Char.isWhitespace).reverse.dropWhile
      Char.isWhitespace).reverse⟩

/-- The form state of TaskForm in the frontend: title, description and
dueDate are plain strings, status and priority numeric enum values. -/
structure FormData where
  title : String
  description : String
  status : Int
  priority : Int
  dueDate : String
deriving DecidableEq, Repr

/-- The request payload assembled by TaskForm.handleSubmit. -/
structure SubmitData where
  title : String
  description : Option String
  status : Int
  priority : Int
  dueDate : Option String
deriving DecidableEq, Repr

/-- TaskForm.validateForm: the only check is that the trimmed title is
nonempty. -/
def validateForm (f : FormData) : Bool := !(trimString f.title == "")

/-- TaskForm.handleSubmit: returns none when validation fails, otherwise
the submitted payload with the title trimmed, the description trimmed and
dropped when empty, and the dueDate dropped when empty. -/
def handleSubmit (f : FormData) : Option SubmitData :=
  if validateForm f then
    some { title := trimString f.title,
           description :=
             if trimString f.description == "" then none
             else some (trimString f.description),
           status := f.status, priority := f.priority,
           dueDate := if f.dueDate == "" then none else some f.dueDate }
  else none

lemma createTask_ok (s : Store) (now : Nat) (input : TaskInput)
    (hvalid : modelStateIsValid input = true) :
    createTask s now input = Except.ok
      ({ tasks := s.tasks ++
          [{ id := s.nextId, title := input.title,
             description := input.description, status := input.status,
             priority := input.priority, createdAt := now,
             updatedAt := some now, dueDate := input.dueDate }],
         nextId := s.nextId + 1 },
       { id := s.nextId, title := input.title,
         description := input.description, status := input.status,
         priority := input.priority, createdAt := now,
         updatedAt := some now, dueDate := input.dueDate }) := by
  simp [createTask, hvalid]

/-- Claim C1, amended: for every valid create input, CreateTask succeeds
and the returned Task has createdAt set to now and updatedAt also set to
now (the source assigns both timestamps at creation, so updatedAt is
present from the start, not only after the first update); the assigned id
is the next sequence value and is distinct from every stored id. -/
theorem createTask_timestamps (s : Store) (now : Nat) (input : TaskInput)
    (hvalid : modelStateIsValid input = true)
    (hfresh : ∀ t ∈ s.tasks, t.id < s.nextId) :
    ∃ s' t, createTask s now input = Except.ok (s', t) ∧
      t.createdAt = now ∧ t.updatedAt = some now ∧
      t.id = s.nextId ∧ ∀ u ∈ s.tasks, u.id ≠ t.id := by
  refine ⟨_, _, createTask_ok s now input hvalid, rfl, rfl, rfl, ?_⟩
  intro u hu
  exact Nat.ne_of_lt (hfresh u hu)

/-- A concrete valid create request body. -/
def demoInput : TaskInput :=
  { title := "Write spec", description := some "draft", status := 0,
    priority := 1, dueDate := none }

theorem createTask_timestamps_witness :
    ∃ s' t, createTask Store.empty 7 demoInput = Except.ok (s', t) ∧
      t.createdAt = 7 ∧ t.updatedAt = some 7 ∧
      t.id = Store.empty.nextId ∧ ∀ u ∈ Store.empty.tasks, u.id ≠ t.id :=
  createTask_timestamps Store.empty 7 demoInput (by decide)
    (by intro t ht; simp [Store.empty] at ht)

/-- UpdatedAt of the task returned by a concrete valid create. -/
def c1UpdatedAt : Option (Option Nat) :=
  match createTask Store.empty 7 demoInput with
  | Except.ok (_, t) => some t.updatedAt
  | Except.error _ => none

/-- Claim C1, counterexample: at the valid input demoInput the create
operation returns a Task whose updatedAt is already present (some 7,
equal to the creation clock), not absent as the claim states. -/
theorem createTask_updatedAt_cex :
    c1UpdatedAt = some (some 7) ∧ c1UpdatedAt ≠ some none := by
  constructor
  · rfl
  · decide

/-- A create request carrying numeric enum codes outside 0..3, after
normalization. -/
def c2Input : TaskInput :=
  { title := "t", description := none,
    status := normalizeTaskStatus (Sum.inl 7),
    priority := normalizeTaskPriority (Sum.inl 9), dueDate := none }

/-- Status and priority actually stored for c2Input. -/
def c2Stored : Option (Int × Int) :=
  match createTask Store.empty 0 c2Input with
  | Except.ok (_, t) => some (t.status, t.priority)
  | Except.error _ => none

/-- Claim C2, counterexample: the numeric codes 7 and 9 lie outside the
enumerations, yet normalization passes them through unchanged and the
write succeeds storing them, contradicting reject-or-normalize. -/
theorem numeric_out_of_range_cex :
    c2Stored = some (7, 9) ∧
    (7 : Int) ∉ statusRange ∧ (9 : Int) ∉ priorityRange := by
  refine ⟨rfl, ?_, ?_⟩ <;> decide

/-- Claim C2, amended: string values are always normalized into the
enumeration (an unrecognized string becomes the default), but numeric
values are used directly as the ordinal with no range check, so a numeric
code outside 0..3 is accepted unchanged rather than rejected or
normalized. -/
theorem normalize_write_behavior (n : Int) (s : String) :
    normalizeTaskStatus (Sum.inl n) = n ∧
    normalizeTaskPriority (Sum.inl n) = n ∧
    normalizeTaskStatus (Sum.inr s) ∈ statusRange ∧
    normalizeTaskPriority (Sum.inr s) ∈ priorityRange :=
  ⟨rfl, rfl, normalizeTaskStatus_string_mem s, normalizeTaskPriority_string_mem s⟩

/-- Claim C3, amended: list() returns exactly the stored Tasks (a
permutation of the table) ordered by createdAt descending; there is no
tie-break on id, rows with equal createdAt keep their insertion order. -/
theorem getTasks_sorted_perm (s : Store) :
    (getTasks s).Sorted createdAtDesc ∧ (getTasks s).Perm s.tasks :=
  ⟨List.sorted_insertionSort createdAtDesc s.tasks,
   List.perm_insertionSort createdAtDesc s.tasks⟩

/-- First of two rows created at the same clock value. -/
def tieInputA : TaskInput :=
  { title := "a", description := none, status := 0, priority := 1, dueDate := none }

/-- Second of two rows created at the same clock value. -/
def tieInputB : TaskInput :=
  { title := "b", description := none, status := 0, priority := 1, dueDate := none }

/-- The store reached by two creates at the same timestamp 5: ids 1 and 2
both with createdAt 5. -/
def tieStore : Store :=
  match createTask Store.empty 5 tieInputA with
  | Except.ok (s1, _) =>
      match createTask s1 5 tieInputB with
      | Except.ok (s2, _) => s2
      | Except.error _ => s1
  | Except.error _ => Store.empty

/-- Claim C3, counterexample: two tasks share createdAt = 5 with ids 1
and 2, and list() returns id 1 before id 2 (insertion order), not the
larger id first as the claim states. -/
theorem getTasks_tie_order_cex :
    (getTasks tieStore).map TaskItem.id = [1, 2] ∧
    (getTasks tieStore).map TaskItem.createdAt = [5, 5] ∧
    (getTasks tieStore).map TaskItem.id ≠ [2, 1] := by
  refine ⟨rfl, rfl, ?_⟩
  decide

lemma find?_map_replace (l : List TaskItem) (pid : Nat) (new : TaskItem)
    (hnew : (new.id == pid) = true)
    (h : (l.find? (fun t => t.id == pid)).isSome = true) :
    (l.map (fun t => if t.id == pid then new else t)).find?
      (fun t => t.id == pid) = some new := by
  induction l with
  | nil => simp [List.find?] at h
  | cons a l ih =>
    by_cases ha : (a.id == pid) = true
    · rw [List.map_cons, if_pos ha]
      simp [List.find?, hnew]
    · rw [List.map_cons, if_neg ha]
      simp only [List.find?, ha] at h ⊢
      exact ih h

/-- The field overwrite performed by UpdateTask on the tracked row:
Title, Description, Status, Priority, DueDate from the body and UpdatedAt
from the clock; Id and CreatedAt are not assigned. -/
def applyUpdate (old : TaskItem) (upd : UpdateInput) (now : Nat) : TaskItem :=
  { old with
    title := upd.title, description := upd.description,
    status := upd.status, priority := upd.priority,
    dueDate := upd.dueDate, updatedAt := some now }

lemma updateTask_ok_eq (s : Store) (now pathId : Nat) (upd : UpdateInput)
    (old : TaskItem)
    (hfind : s.tasks.find? (fun t => t.id == pathId) = some old)
    (hid : pathId = upd.id)
    (hvalid : modelStateIsValid upd.fields = true) :
    updateTask s now pathId upd = Except.ok
      { s with tasks := (s.tasks.map
          (fun t => if t.id == pathId then applyUpdate old upd now else t)) } := by
  subst hid
  simp [updateTask, applyUpdate, hvalid, hfind]

lemma updateTask_found_spec (s : Store) (now pathId : Nat)
    (upd : UpdateInput) (old : TaskItem)
    (hfind : s.tasks.find? (fun t => t.id == pathId) = some old)
    (hid : pathId = upd.id)
    (hvalid : modelStateIsValid upd.fields = true) :
    ∃ s' new, updateTask s now pathId upd = Except.ok s' ∧
      s'.tasks.find? (fun t => t.id == pathId) = some new ∧
      new.id = old.id ∧ new.createdAt = old.createdAt ∧
      new.title = upd.title ∧ new.description = upd.description ∧
      new.status = upd.status ∧ new.priority = upd.priority ∧
      new.dueDate = upd.dueDate ∧ new.updatedAt = some now ∧
      ∀ t ∈ s.tasks, t.id ≠ pathId → t ∈ s'.tasks := by
  have hold : (old.id == pathId) = true :=
    @List.find?_some TaskItem (fun t => t.id == pathId) old s.tasks hfind
  refine ⟨_, applyUpdate old upd now,
    updateTask_ok_eq s now pathId upd old hfind hid hvalid,
    ?_, rfl, rfl, rfl, rfl, rfl, rfl, rfl, rfl, ?_⟩
  · exact find?_map_replace s.tasks pathId _ hold (by rw [hfind]; rfl)
  · intro t ht hne
    refine List.mem_map.mpr ⟨t, ht, ?_⟩
    rw [if_neg]
    simp [hne]

/-- Claim C7: for an existing record and a valid update input (path id
matching the body id), UpdateTask succeeds, the record keeps its id and
createdAt, its title, description, status, priority and dueDate become
the input values, updatedAt becomes the current clock, every other
record is untouched, and under a monotone clock the new updatedAt is at
least the previous one. -/
theorem updateTask_frame_fields (s : Store) (now pathId : Nat)
    (upd : UpdateInput) (old : TaskItem)
    (hfind : s.tasks.find? (fun t => t.id == pathId) = some old)
    (hid : pathId = upd.id)
    (hvalid : modelStateIsValid upd.fields = true)
    (hclock : ∀ p, old.updatedAt = some p → p ≤ now) :
    ∃ s' new, updateTask s now pathId upd = Except.ok s' ∧
      s'.tasks.find? (fun t => t.id == pathId) = some new ∧
      new.id = old.id ∧ new.createdAt = old.createdAt ∧
      new.title = upd.title ∧ new.description = upd.description ∧
      new.status = upd.status ∧ new.priority = upd.priority ∧
      new.dueDate = upd.dueDate ∧ new.updatedAt = some now ∧
      (∀ t ∈ s.tasks, t.id ≠ pathId → t ∈ s'.tasks) ∧
      ∀ p, old.updatedAt = some p → ∃ q, new.updatedAt = some q ∧ p ≤ q := by
  obtain ⟨s', new, h1, h2, h3, h4, h5, h6, h7, h8, h9, h10, h11⟩ :=
    updateTask_found_spec s now pathId upd old hfind hid hvalid
  exact ⟨s', new, h1, h2, h3, h4, h5, h6, h7, h8, h9, h10, h11,
    fun p hp => ⟨now, h10, hclock p hp⟩⟩

/-- A concrete stored row used by the witnesses. -/
def demoRow : TaskItem :=
  { id := 1, title := "a", description := none, status := 0, priority := 1,
    createdAt := 5, updatedAt := some 5, dueDate := none }

/-- A concrete one-row store used by the witnesses. -/
def demoStore : Store := { tasks := [demoRow], nextId := 2 }

/-- A concrete valid update body for id 1. -/
def demoUpd : UpdateInput :=
  { id := 1, title := "b", description := some "d", status := 2,
    priority := 3, dueDate := some 9 }

theorem updateTask_frame_fields_witness :
    ∃ s' new, updateTask demoStore 8 1 demoUpd = Except.ok s' ∧
      s'.tasks.find? (fun t => t.id == 1) = some new ∧
      new.id = demoRow.id ∧ new.createdAt = demoRow.createdAt ∧
      new.title = demoUpd.title ∧ new.description = demoUpd.description ∧
      new.status = demoUpd.status ∧ new.priority = demoUpd.priority ∧
      new.dueDate = demoUpd.dueDate ∧ new.updatedAt = some 8 ∧
      (∀ t ∈ demoStore.tasks, t.id ≠ 1 → t ∈ s'.tasks) ∧
      ∀ p, demoRow.updatedAt = some p → ∃ q, new.updatedAt = some q ∧ p ≤ q :=
  updateTask_frame_fields demoStore 8 1 demoUpd demoRow (by decide) rfl
    (by decide) (by intro p hp; simp [demoRow] at hp; omega)

lemma find?_eraseP_none (l : List TaskItem) (pid : Nat)
    (hwf : l.Pairwise (fun a b => a.id ≠ b.id)) :
    (l.eraseP (fun t => t.id == pid)).find? (fun t => t.id == pid) = none := by
  induction l with
  | nil => simp
  | cons a l ih =>
    rcases List.pairwise_cons.mp hwf with ⟨ha, hl⟩
    by_cases h : (a.id == pid) = true
    · simp only [List.eraseP_cons, h, cond_true]
      rw [List.find?_eq_none]
      intro x hx
      have hapid : a.id = pid := by simpa using h
      have hxa : a.id ≠ x.id := ha x hx
      simp [← hapid]
      exact fun he => hxa he.symm
    · have h' : (a.id == pid) = false := by simpa using h
      simp only [List.eraseP_cons, h', cond_false, List.find?]
      exact ih hl

/-- Claim C8: when no record has the requested id, DeleteTask answers
NotFound (and, returning an error, leaves the store unchanged); and after
a successful delete in a store with distinct ids, deleting the same id
again answers NotFound — the failure is idempotent, a repeated delete
never silently succeeds. -/
theorem deleteTask_notFound_idempotent (s : Store) (id : Nat)
    (hwf : s.tasks.Pairwise (fun a b => a.id ≠ b.id)) :
    (s.tasks.find? (fun t => t.id == id) = none →
      deleteTask s id = Except.error ApiError.notFound) ∧
    ∀ s', deleteTask s id = Except.ok s' →
      deleteTask s' id = Except.error ApiError.notFound := by
  constructor
  · intro h
    simp [deleteTask, h]
  · intro s' h
    unfold deleteTask at h
    cases hfind : s.tasks.find? (fun t => t.id == id) with
    | none => rw [hfind] at h; cases h
    | some t =>
        rw [hfind] at h
        cases h
        simp [deleteTask, find?_eraseP_none s.tasks id hwf]

theorem deleteTask_notFound_idempotent_witness :
    (demoStore.tasks.find? (fun t => t.id == 1) = none →
      deleteTask demoStore 1 = Except.error ApiError.notFound) ∧
    ∀ s', deleteTask demoStore 1 = Except.ok s' →
      deleteTask s' 1 = Except.error ApiError.notFound :=
  deleteTask_notFound_idempotent demoStore 1 (by decide)

/-- A create request whose title has surrounding whitespace. -/
def paddedInput : TaskInput :=
  { title := "  padded  ", description := none, status := 0, priority := 1,
    dueDate := none }

/-- Title actually stored for paddedInput. -/
def c5StoredTitle : Option String :=
  match createTask Store.empty 0 paddedInput with
  | Except.ok (_, t) => some t.title
  | Except.error _ => none

/-- Claim C5, counterexample: the store keeps the surrounding whitespace;
the title stored for the input "  padded  " is "  padded  ", not its
trimmed form "padded". -/
theorem stored_title_not_trimmed_cex :
    c5StoredTitle = some "  padded  " ∧
    trimString "  padded  " = "padded" ∧
    c5StoredTitle ≠ some "padded" := by
  refine ⟨rfl, ?_, ?_⟩ <;> decide

/-- Claim C5, amended: neither CreateTask nor UpdateTask trims the title,
the stored title is the request title verbatim; trimming happens only in
the frontend form, whose handleSubmit submits the trimmed title. -/
theorem title_trim_location (s : Store) (now pathId : Nat)
    (input : TaskInput) (upd : UpdateInput) (old : TaskItem) (f : FormData)
    (hvalid : modelStateIsValid input = true)
    (hfind : s.tasks.find? (fun t => t.id == pathId) = some old)
    (hid : pathId = upd.id)
    (hvalidU : modelStateIsValid upd.fields = true)
    (hform : validateForm f = true) :
    (∃ s' t, createTask s now input = Except.ok (s', t) ∧
       t.title = input.title) ∧
    (∃ s' new, updateTask s now pathId upd = Except.ok s' ∧
       s'.tasks.find? (fun t => t.id == pathId) = some new ∧
       new.title = upd.title) ∧
    ∃ d, handleSubmit f = some d ∧ d.title = trimString f.title := by
  refine ⟨⟨_, _, createTask_ok s now input hvalid, rfl⟩, ?_, ?_⟩
  · obtain ⟨s', new, h1, h2, _, _, h5, _⟩ :=
      updateTask_found_spec s now pathId upd old hfind hid hvalidU
    exact ⟨s', new, h1, h2, h5⟩
  · simp only [handleSubmit, hform, if_true]
    exact ⟨_, rfl, rfl⟩

/-- A concrete form state with whitespace around the title. -/
def demoForm : FormData :=
  { title := "  padded  ", description := "", status := 0, priority := 1,
    dueDate := "" }

theorem title_trim_location_witness :
    ((∃ s' t, createTask demoStore 8 paddedInput = Except.ok (s', t) ∧
        t.title = paddedInput.title) ∧
     (∃ s' new, updateTask demoStore 8 1 demoUpd = Except.ok s' ∧
        s'.tasks.find? (fun t => t.id == 1) = some new ∧
        new.title = demoUpd.title) ∧
     ∃ d, handleSubmit demoForm = some d ∧ d.title = trimString demoForm.title) :=
  title_trim_location demoStore 8 1 paddedInput demoUpd demoRow demoForm
    (by decide) (by decide) rfl (by decide) (by decide)

/-- Claim C6: an unrecognized status string normalizes to Pending and an
unrecognized priority string to Medium, and a create carrying such
normalized values does not fail: it succeeds and stores the defaults
(for example status "Blocked" yields a stored status Pending). -/
theorem unrecognized_string_defaults (s sp : String) (st : Store)
    (now : Nat) (input : TaskInput)
    (hs : s ∉ ["Pending", "InProgress", "Completed", "Cancelled"])
    (hp : sp ∉ ["Low", "Medium", "High", "Critical"])
    (hvalid : modelStateIsValid input = true) :
    normalizeTaskStatus (Sum.inr s) = StatusMember.Pending.ord ∧
    normalizeTaskPriority (Sum.inr sp) = PriorityMember.Medium.ord ∧
    ∃ s' t, createTask st now
        { input with status := normalizeTaskStatus (Sum.inr s),
                     priority := normalizeTaskPriority (Sum.inr sp) } =
        Except.ok (s', t) ∧
      t.status = StatusMember.Pending.ord ∧
      t.priority = PriorityMember.Medium.ord := by
  simp only [List.mem_cons, List.not_mem_nil, or_false, not_or] at hs hp
  obtain ⟨hs1, hs2, hs3, hs4⟩ := hs
  obtain ⟨hp1, hp2, hp3, hp4⟩ := hp
  have hsval : normalizeTaskStatus (Sum.inr s) = StatusMember.Pending.ord := by
    simp [normalizeTaskStatus, hs1, hs2, hs3, hs4, StatusMember.ord]
  have hpval : normalizeTaskPriority (Sum.inr sp) = PriorityMember.Medium.ord := by
    simp [normalizeTaskPriority, hp1, hp2, hp3, hp4, PriorityMember.ord]
  exact ⟨hsval, hpval, _, _, createTask_ok st now _ hvalid, hsval, hpval⟩

theorem unrecognized_string_defaults_witness :
    normalizeTaskStatus (Sum.inr "Blocked") = StatusMember.Pending.ord ∧
    normalizeTaskPriority (Sum.inr "Urgent") = PriorityMember.Medium.ord ∧
    ∃ s' t, createTask Store.empty 3
        { demoInput with status := normalizeTaskStatus (Sum.inr "Blocked"),
                         priority := normalizeTaskPriority (Sum.inr "Urgent") } =
        Except.ok (s', t) ∧
      t.status = StatusMember.Pending.ord ∧
      t.priority = PriorityMember.Medium.ord :=
  unrecognized_string_defaults "Blocked" "Urgent" Store.empty 3 demoInput
    (by decide) (by decide) (by decide)
